import Mathlib

/-!
Shallow embedding of the `Downloader` request coordinator from
`src/libtextosaurus/common/network-web/downloader.cpp`.

The embedding models:
* URLs as parsed components (scheme, userinfo, host, port, path) together
  with a `fromString` parser and a `toStringQ` renderer mirroring how the
  code round-trips URLs through strings when rebuilding redirect targets;
* the raw-header map of a network request (case-insensitive keys, as in
  the underlying toolkit) and the coordinator's own custom-header hash
  (exact byte keys);
* the single-shot inactivity timer (interval, active flag);
* the coordinator state (active reply, stored body and credentials, last
  outcome fields) and every member function that the claims touch:
  `manipulateData`, the four `run*Request` starters, `finished`,
  `progressInternal`, `cancel`, `appendRawHeader` and the three accessors.

Observable outputs (signal emissions and transport starts) are returned
as explicit event lists.
-/

namespace Textosaurus

/-- ASCII-lowercase a string, used for case-insensitive header-name
matching of the toolkit's raw-header table. -/
def asciiLower (s : String) : String := ⟨s.data.map Char.toLower⟩

/-! ### URL model -/

/-- A URL decomposed into the components the code reads:
`scheme()`, `host()` and the rendered remainder. `path` holds
everything after the authority (path, query, fragment). -/
structure Url where
  scheme : String
  userinfo : String
  host : String
  port : Option Nat
  path : String
  deriving DecidableEq, Repr

/-- The default-constructed (empty) URL, as produced by converting an
absent attribute value. -/
def Url.empty : Url := ⟨"", "", "", none, ""⟩

/-- `QUrl::isValid()` as the code relies on it: the empty URL is invalid,
any URL with some component present is valid. -/
def Url.isValid (u : Url) : Bool :=
  !(u.scheme.isEmpty && u.userinfo.isEmpty && u.host.isEmpty &&
    u.port.isNone && u.path.isEmpty)

/-- Render a URL back to a string (`QUrl::toString()`):
`scheme://userinfo@host:port` followed by the path part, with empty
components omitted.  A host-less, scheme-less URL renders as its bare
path, e.g. `/new`. -/
def Url.toStringQ (u : Url) : String :=
  (if u.scheme.isEmpty then "" else u.scheme ++ "://") ++
  (if u.userinfo.isEmpty then "" else u.userinfo ++ "@") ++
  u.host ++
  (match u.port with
   | none => ""
   | some p => ":" ++ toString p) ++
  u.path

/-- Split a character list at the first occurrence of `"://"`,
returning the part before (the scheme) and the part after. -/
def findSchemeSplit : List Char → Option (List Char × List Char)
  | [] => none
  | c :: rest =>
    if c = ':' ∧ rest.take 2 = ['/', '/'] then some ([], rest.drop 2)
    else
      match findSchemeSplit rest with
      | some (a, b) => some (c :: a, b)
      | none => none

/-- Split the part after `"://"` at the first `/`: authority before,
path (including the slash) after. -/
def splitHostPath : List Char → List Char × List Char
  | [] => ([], [])
  | c :: rest =>
    if c = '/' then ([], c :: rest)
    else
      let p := splitHostPath rest
      (c :: p.1, p.2)

/-- Split an authority at its first `@` into userinfo and host-port;
without an `@` the userinfo is empty. -/
def splitUserinfoHost (l : List Char) : List Char × List Char :=
  if '@' ∈ l then (l.takeWhile (· ≠ '@'), (l.dropWhile (· ≠ '@')).drop 1)
  else ([], l)

/-- Parse a decimal port number from a character list. -/
def parsePort (l : List Char) : Option Nat :=
  if l ≠ [] ∧ l.all (fun c => c.isDigit) then
    some (l.foldl (fun n c => n * 10 + (c.toNat - '0'.toNat)) 0)
  else none

/-- Split a host-port at its first `:`; the digits after it form the
port when they parse as a number. -/
def splitHostPort (l : List Char) : List Char × Option Nat :=
  if ':' ∈ l then
    ((l.takeWhile (· ≠ ':')), parsePort ((l.dropWhile (· ≠ ':')).drop 1))
  else (l, none)

/-- Parse a URL string into components, the way the code's string-based
URL constructor does: an input without `"://"` is a relative reference
kept entirely in `path`; otherwise scheme, optional userinfo, host,
optional port and path are extracted. -/
def Url.fromString (s : String) : Url :=
  match findSchemeSplit s.data with
  | none => { scheme := "", userinfo := "", host := "", port := none, path := s }
  | some (sch, rest) =>
    let hp := splitHostPath rest
    let uh := splitUserinfoHost hp.1
    let hpt := splitHostPort uh.2
    { scheme := String.mk sch
      userinfo := String.mk uh.1
      host := String.mk hpt.1
      port := hpt.2
      path := String.mk hp.2 }

/-! ### Requests, headers, operations -/

/-- The HTTP operation kinds dispatched by the coordinator. -/
inductive Op where
  | GetOperation
  | PostOperation
  | PutOperation
  | DeleteOperation
  deriving DecidableEq, Repr

/-- A network request: its raw-header list (names matched
case-insensitively, as in the toolkit) and its URL. -/
structure QNetworkRequest where
  rawHeaders : List (String × String)
  url : Url
  deriving DecidableEq, Repr

/-- A fresh network request with no headers and the empty URL. -/
def QNetworkRequest.mkEmpty : QNetworkRequest := ⟨[], Url.empty⟩

/-- `QNetworkRequest::setRawHeader`: replace the value stored under a
case-insensitively equal name, or append the pair. -/
def QNetworkRequest.setRawHeader (r : QNetworkRequest) (name value : String) :
    QNetworkRequest :=
  if r.rawHeaders.any (fun p => asciiLower p.1 = asciiLower name) then
    let hs := r.rawHeaders.map
      (fun p => if asciiLower p.1 = asciiLower name then (p.1, value) else p)
    { r with rawHeaders := hs }
  else
    { r with rawHeaders := r.rawHeaders ++ [(name, value)] }

/-- `QNetworkRequest::rawHeader`: the stored value under a
case-insensitively equal name, or the empty byte array. -/
def QNetworkRequest.rawHeader (r : QNetworkRequest) (name : String) : String :=
  ((r.rawHeaders.find? (fun p => asciiLower p.1 = asciiLower name)).map Prod.snd).getD ""

/-- `QNetworkRequest::setUrl`. -/
def QNetworkRequest.setUrl (r : QNetworkRequest) (u : Url) : QNetworkRequest :=
  { r with url := u }

/-- `QHash::insert` on the coordinator's custom-header hash: exact-key
replace-or-insert. -/
def hashInsert (l : List (String × String)) (k v : String) :
    List (String × String) :=
  if l.any (fun p => p.1 = k) then
    l.map (fun p => if p.1 = k then (k, v) else p)
  else l ++ [(k, v)]

/-- Exact-key lookup in the custom-header hash. -/
def hashLookup (l : List (String × String)) (k : String) : Option String :=
  (l.find? (fun p => p.1 = k)).map Prod.snd

/-! ### Timer -/

/-- The single-shot inactivity timer: its configured interval and
whether a countdown is currently running.  An active single-shot timer
eventually fires once, absent an intervening stop or restart. -/
structure QTimerS where
  interval : Int
  active : Bool
  deriving DecidableEq, Repr

/-- `QTimer::setInterval`. -/
def QTimerS.setInterval (t : QTimerS) (i : Int) : QTimerS :=
  { t with interval := i }

/-- `QTimer::start()`: begins a countdown of the configured interval.
A negative interval cannot be started (the toolkit refuses it), so the
timer stays inactive; interval 0 starts a countdown that fires
immediately. -/
def QTimerS.start (t : QTimerS) : QTimerS :=
  { t with active := decide (0 ≤ t.interval) }

/-- `QTimer::stop()`. -/
def QTimerS.stop (t : QTimerS) : QTimerS :=
  { t with active := false }

/-! ### Replies, responses, events -/

/-- The network-error codes the claims distinguish: no error, the abort
code reported after `abort()`, and any other transport error. -/
inductive NetworkError where
  | NoError
  | OperationCanceledError
  | OtherError (code : Nat)
  deriving DecidableEq, Repr

/-- The in-flight reply handle: the request it was created from, its
operation, the credential properties set on it, and whether `abort()`
has been requested. -/
structure ActiveOp where
  request : QNetworkRequest
  operation : Op
  protectedProp : Bool
  usernameProp : String
  passwordProp : String
  aborted : Bool
  deriving DecidableEq, Repr

/-- What the transport layer attaches to a reply by the time its
finished signal is delivered: redirection-target attribute (absent or a
URL), readable body, content-type header, error code. -/
structure Response where
  redirectTarget : Option Url
  body : String
  contentType : Option String
  error : NetworkError
  deriving DecidableEq, Repr

/-- Observable outputs of a coordinator step: signal emissions and
transport-operation starts. -/
inductive Event where
  | completed (error : NetworkError) (data : String)
  | progress (bytesReceived bytesTotal : Int)
  | transportStart (op : Op) (req : QNetworkRequest) (body : String)
      (protectedProp : Bool) (usernameProp passwordProp : String)
  deriving DecidableEq, Repr

/-- Whether an event is a terminal `completed` emission. -/
def Event.isCompleted : Event → Bool
  | .completed _ _ => true
  | _ => false

/-! ### Coordinator state -/

/-- The `Downloader` member state. -/
structure Downloader where
  m_activeReply : Option ActiveOp
  m_timer : QTimerS
  m_inputData : String
  m_targetProtected : Bool
  m_targetUsername : String
  m_targetPassword : String
  m_lastOutputData : String
  m_lastOutputError : NetworkError
  m_lastContentType : Option String
  m_customHeaders : List (String × String)
  deriving DecidableEq, Repr

/-- The constructor: no active reply, empty stored data and
credentials, no last error, timer configured single-shot with the
compile-time default interval (`DOWNLOAD_TIMEOUT`, defined in a header
outside the excerpt; it is a parameter here) and connected to
`cancel`. -/
def Downloader.init (downloadTimeout : Int) : Downloader :=
  { m_activeReply := none
    m_timer := ⟨downloadTimeout, false⟩
    m_inputData := ""
    m_targetProtected := false
    m_targetUsername := ""
    m_targetPassword := ""
    m_lastOutputData := ""
    m_lastOutputError := NetworkError.NoError
    m_lastContentType := none
    m_customHeaders := [] }

/-- `Downloader::lastContentType`. -/
def Downloader.lastContentType (s : Downloader) : Option String :=
  s.m_lastContentType

/-- `Downloader::lastOutputError`. -/
def Downloader.lastOutputError (s : Downloader) : NetworkError :=
  s.m_lastOutputError

/-- `Downloader::lastOutputData`. -/
def Downloader.lastOutputData (s : Downloader) : String :=
  s.m_lastOutputData

/-- `Downloader::runGetRequest`: start the timer, hand the request to
the transport manager, set the credential properties on the new reply
and record it as active. -/
def Downloader.runGetRequest (s : Downloader) (request : QNetworkRequest) :
    Downloader × List Event :=
  let s := { s with m_timer := s.m_timer.start }
  let reply : ActiveOp :=
    { request := request, operation := Op.GetOperation
      protectedProp := s.m_targetProtected
      usernameProp := s.m_targetUsername
      passwordProp := s.m_targetPassword
      aborted := false }
  ({ s with m_activeReply := some reply },
   [Event.transportStart Op.GetOperation request "" s.m_targetProtected
      s.m_targetUsername s.m_targetPassword])

/-- `Downloader::runPostRequest`. -/
def Downloader.runPostRequest (s : Downloader) (request : QNetworkRequest)
    (data : String) : Downloader × List Event :=
  let s := { s with m_timer := s.m_timer.start }
  let reply : ActiveOp :=
    { request := request, operation := Op.PostOperation
      protectedProp := s.m_targetProtected
      usernameProp := s.m_targetUsername
      passwordProp := s.m_targetPassword
      aborted := false }
  ({ s with m_activeReply := some reply },
   [Event.transportStart Op.PostOperation request data s.m_targetProtected
      s.m_targetUsername s.m_targetPassword])

/-- `Downloader::runPutRequest`. -/
def Downloader.runPutRequest (s : Downloader) (request : QNetworkRequest)
    (data : String) : Downloader × List Event :=
  let s := { s with m_timer := s.m_timer.start }
  let reply : ActiveOp :=
    { request := request, operation := Op.PutOperation
      protectedProp := s.m_targetProtected
      usernameProp := s.m_targetUsername
      passwordProp := s.m_targetPassword
      aborted := false }
  ({ s with m_activeReply := some reply },
   [Event.transportStart Op.PutOperation request data s.m_targetProtected
      s.m_targetUsername s.m_targetPassword])

/-- `Downloader::runDeleteRequest`. -/
def Downloader.runDeleteRequest (s : Downloader) (request : QNetworkRequest) :
    Downloader × List Event :=
  let s := { s with m_timer := s.m_timer.start }
  let reply : ActiveOp :=
    { request := request, operation := Op.DeleteOperation
      protectedProp := s.m_targetProtected
      usernameProp := s.m_targetUsername
      passwordProp := s.m_targetPassword
      aborted := false }
  ({ s with m_activeReply := some reply },
   [Event.transportStart Op.DeleteOperation request "" s.m_targetProtected
      s.m_targetUsername s.m_targetPassword])

/-- The content-type header name constant (`HTTP_HEADERS_CONTENT_TYPE`). -/
def HTTP_HEADERS_CONTENT_TYPE : String := "Content-Type"

/-- `Downloader::manipulateData`: merge the custom headers into a fresh
request, default the content-type to form-encoded for POST when none is
present, store the body and credentials, set the timer interval and the
request URL, then start the transport operation matching `operation`. -/
def Downloader.manipulateData (s : Downloader) (url : String) (operation : Op)
    (data : String) (timeout : Int) (protected_contents : Bool)
    (username password : String) : Downloader × List Event :=
  let request := s.m_customHeaders.foldl
    (fun r p => r.setRawHeader p.1 p.2) QNetworkRequest.mkEmpty
  let request :=
    if operation = Op.PostOperation ∧
        (request.rawHeader HTTP_HEADERS_CONTENT_TYPE).isEmpty then
      request.setRawHeader HTTP_HEADERS_CONTENT_TYPE
        "application/x-www-form-urlencoded"
    else request
  let s := { s with m_inputData := data }
  let s := { s with m_timer := s.m_timer.setInterval timeout }
  let request := request.setUrl (Url.fromString url)
  let s := { s with m_targetProtected := protected_contents
                    m_targetUsername := username
                    m_targetPassword := password }
  match operation with
  | Op.PostOperation => s.runPostRequest request s.m_inputData
  | Op.GetOperation => s.runGetRequest request
  | Op.PutOperation => s.runPutRequest request s.m_inputData
  | Op.DeleteOperation => s.runDeleteRequest request

/-- `Downloader::downloadFile`. -/
def Downloader.downloadFile (s : Downloader) (url : String) (timeout : Int)
    (protected_contents : Bool) (username password : String) :
    Downloader × List Event :=
  s.manipulateData url Op.GetOperation "" timeout protected_contents
    username password

/-- `Downloader::uploadFile`. -/
def Downloader.uploadFile (s : Downloader) (url : String) (data : String)
    (timeout : Int) (protected_contents : Bool) (username password : String) :
    Downloader × List Event :=
  s.manipulateData url Op.PostOperation data timeout protected_contents
    username password

/-- `Downloader::finished`: the reply (the signal's sender) is the
active reply; `resp` is what the transport attached to it.  Stops the
timer; if the redirection-target attribute converts to a valid URL,
rebuilds the follow-up request (resolving a host-less target against
the original scheme and host via string concatenation) and re-runs the
same operation; otherwise stores body, content-type and error and emits
`completed`. -/
def Downloader.finished (s : Downloader) (resp : Response) :
    Downloader × List Event :=
  match s.m_activeReply with
  | none => (s, [])
  | some reply =>
    let s := { s with m_timer := s.m_timer.stop }
    let redirection_url := (resp.redirectTarget.getD Url.empty)
    if redirection_url.isValid then
      let request := reply.request
      let request :=
        if redirection_url.host.isEmpty then
          request.setUrl (Url.fromString
            (reply.request.url.scheme ++ "://" ++ reply.request.url.host ++
              redirection_url.toStringQ))
        else
          request.setUrl redirection_url
      let s := { s with m_activeReply := none }
      match reply.operation with
      | Op.GetOperation => s.runGetRequest request
      | Op.PostOperation => s.runPostRequest request s.m_inputData
      | Op.PutOperation => s.runPutRequest request s.m_inputData
      | Op.DeleteOperation => s.runDeleteRequest request
    else
      let s := { s with m_lastOutputData := resp.body
                        m_lastContentType := resp.contentType
                        m_lastOutputError := resp.error
                        m_activeReply := none }
      (s, [Event.completed s.m_lastOutputError s.m_lastOutputData])

/-- `Downloader::progressInternal`: restart the countdown when the
configured interval is positive, then re-emit progress. -/
def Downloader.progressInternal (s : Downloader)
    (bytes_received bytes_total : Int) : Downloader × List Event :=
  let s := if s.m_timer.interval > 0 then { s with m_timer := s.m_timer.start }
           else s
  (s, [Event.progress bytes_received bytes_total])

/-- `Downloader::cancel`: abort the active reply when one exists. -/
def Downloader.cancel (s : Downloader) : Downloader :=
  match s.m_activeReply with
  | some reply => { s with m_activeReply := some { reply with aborted := true } }
  | none => s

/-- The timer's timeout signal handler: the constructor connects the
timer's timeout to `cancel`. -/
def Downloader.onTimerTimeout (s : Downloader) : Downloader :=
  s.cancel

/-- `Downloader::appendRawHeader`: insert into the custom-header hash
only when the value is non-empty. -/
def Downloader.appendRawHeader (s : Downloader) (name value : String) :
    Downloader :=
  if !value.isEmpty then
    { s with m_customHeaders := hashInsert s.m_customHeaders name value }
  else s

/-! ### Event-loop actions

A run of the coordinator is a sequence of externally triggered actions:
a dispatch, a progress tick, a finished delivery, the timer firing, or
an external cancel.  The timer can fire only while it is active. -/

/-- External actions delivered by the event loop. -/
inductive Act where
  | dispatch (url : String) (op : Op) (data : String) (timeout : Int)
      (prot : Bool) (user pass : String)
  | progressTick (bytesReceived bytesTotal : Int)
  | finishedEv (resp : Response)
  | timerFired
  | externalCancel
  | appendHeader (name value : String)
  deriving DecidableEq, Repr

/-- Whether an action is a dispatch (starts a new request). -/
def Act.isDispatch : Act → Bool
  | .dispatch _ _ _ _ _ _ _ => true
  | _ => false

/-- One event-loop step.  The timer firing is possible only while the
timer is active; firing consumes the single-shot countdown and invokes
the connected `cancel` slot. -/
def stepA (s : Downloader) (a : Act) : Downloader × List Event :=
  match a with
  | .dispatch url op data timeout prot user pass =>
    s.manipulateData url op data timeout prot user pass
  | .progressTick br bt => s.progressInternal br bt
  | .finishedEv resp => s.finished resp
  | .timerFired =>
    if s.m_timer.active then
      ({ s with m_timer := s.m_timer.stop }.onTimerTimeout, [])
    else (s, [])
  | .externalCancel => (s.cancel, [])
  | .appendHeader name value => (s.appendRawHeader name value, [])

/-- Run a list of actions from a state, discarding events. -/
def runActs (s : Downloader) (acts : List Act) : Downloader :=
  acts.foldl (fun st a => (stepA st a).1) s

/-! ### Observation helpers over event lists -/

/-- URLs of the transport operations started by a step. -/
def dispatchedUrls (evs : List Event) : List Url :=
  evs.filterMap fun e =>
    match e with
    | .transportStart _ r _ _ _ _ => some r.url
    | _ => none

/-- Requests of the transport operations started by a step. -/
def dispatchedReqs (evs : List Event) : List QNetworkRequest :=
  evs.filterMap fun e =>
    match e with
    | .transportStart _ r _ _ _ _ => some r
    | _ => none

/-- Operations of the transport operations started by a step. -/
def dispatchedOps (evs : List Event) : List Op :=
  evs.filterMap fun e =>
    match e with
    | .transportStart op _ _ _ _ _ => some op
    | _ => none

/-- Body payloads handed to the transport by a step. -/
def dispatchedBodies (evs : List Event) : List String :=
  evs.filterMap fun e =>
    match e with
    | .transportStart _ _ b _ _ _ => some b
    | _ => none

/-- Credential triples (protection flag, username, password) set on the
replies started by a step. -/
def dispatchedCreds (evs : List Event) : List (Bool × String × String) :=
  evs.filterMap fun e =>
    match e with
    | .transportStart _ _ _ pr un pa => some (pr, un, pa)
    | _ => none

/-! ### Parser lemmas

The redirect rebuild concatenates `scheme ++ "://" ++ host ++ target`
and re-parses; these lemmas recover the components from the
concatenation under the usual well-formedness side conditions. -/

theorem findSchemeSplit_junction (sch rest : List Char) (h : ':' ∉ sch) :
    findSchemeSplit (sch ++ ':' :: '/' :: '/' :: rest) = some (sch, rest) := by
  induction sch with
  | nil => simp [findSchemeSplit]
  | cons c cs ih =>
    have hc : ¬(c = ':') := fun hc => h (by simp [hc])
    have h' : ':' ∉ cs := fun hm => h (List.mem_cons_of_mem _ hm)
    simp [findSchemeSplit, hc, ih h']

theorem splitHostPath_junction (host rest : List Char) (h : '/' ∉ host) :
    splitHostPath (host ++ '/' :: rest) = (host, '/' :: rest) := by
  induction host with
  | nil => simp [splitHostPath]
  | cons c cs ih =>
    have hc : ¬(c = '/') := fun hc => h (by simp [hc])
    have h' : '/' ∉ cs := fun hm => h (List.mem_cons_of_mem _ hm)
    simp [splitHostPath, hc, ih h']

theorem splitUserinfoHost_no_at (l : List Char) (h : '@' ∉ l) :
    splitUserinfoHost l = ([], l) := by
  simp [splitUserinfoHost, h]

theorem splitHostPort_no_colon (l : List Char) (h : ':' ∉ l) :
    splitHostPort l = (l, none) := by
  simp [splitHostPort, h]

/-- Re-parsing `scheme ++ "://" ++ host ++ path` recovers the
components, provided the scheme contains no `:`, the host contains no
`/`, `@` or `:`, and the path starts with `/`. -/
theorem fromString_rebuild (sch host path : String)
    (hs : ':' ∉ sch.data)
    (h1 : '/' ∉ host.data) (h2 : '@' ∉ host.data) (h3 : ':' ∉ host.data)
    (hp : ∃ r, path.data = '/' :: r) :
    Url.fromString (sch ++ "://" ++ host ++ path) =
      { scheme := sch, userinfo := "", host := host, port := none, path := path } := by
  obtain ⟨r, hr⟩ := hp
  have hdata : (sch ++ "://" ++ host ++ path).data =
      sch.data ++ ':' :: '/' :: '/' :: (host.data ++ '/' :: r) := by
    simp [String.data_append, hr]
  have h4 : String.mk ('/' :: r) = path := by rw [← hr]
  simp only [Url.fromString, hdata, findSchemeSplit_junction _ _ hs,
    splitHostPath_junction _ _ h1, splitUserinfoHost_no_at _ h2,
    splitHostPort_no_colon _ h3, h4]

/-! ### Redirect continuation lemmas -/

/-- The payload handed to the transport for each operation kind (GET
and DELETE requests carry no payload). -/
def opBody : Op → String → String
  | Op.PostOperation, d => d
  | Op.PutOperation, d => d
  | _, _ => ""

/-- On a valid redirection target, `finished` starts exactly one
follow-up transport operation: same operation kind as the completed
reply, request rebuilt from the redirect target, body given by
`opBody`, credentials from the stored target fields. -/
theorem finished_redirect_events (s : Downloader) (reply : ActiveOp)
    (resp : Response) (hA : s.m_activeReply = some reply)
    (hV : (resp.redirectTarget.getD Url.empty).isValid = true) :
    (s.finished resp).2 = [Event.transportStart reply.operation
      (reply.request.setUrl
        (if (resp.redirectTarget.getD Url.empty).host.isEmpty then
          Url.fromString (reply.request.url.scheme ++ "://" ++
            reply.request.url.host ++
            (resp.redirectTarget.getD Url.empty).toStringQ)
        else (resp.redirectTarget.getD Url.empty)))
      (opBody reply.operation s.m_inputData)
      s.m_targetProtected s.m_targetUsername s.m_targetPassword] := by
  by_cases hH : (resp.redirectTarget.getD Url.empty).host.isEmpty = true <;>
    cases hop : reply.operation <;>
      simp [Downloader.finished, hA, hV, hH, hop, opBody,
        Downloader.runGetRequest, Downloader.runPostRequest,
        Downloader.runPutRequest, Downloader.runDeleteRequest]

/-- On a valid redirection target whose host is empty, the single
follow-up URL is rebuilt from the previous request's scheme and host
and the target's path, with no userinfo and no port. -/
theorem redirect_empty_host_rebuild (s : Downloader) (reply : ActiveOp)
    (resp : Response) (tgt : Url)
    (hA : s.m_activeReply = some reply)
    (hT : resp.redirectTarget = some tgt)
    (hV : tgt.isValid = true)
    (hHost : tgt.host = "")
    (hScheme : tgt.scheme = "") (hUi : tgt.userinfo = "")
    (hPort : tgt.port = none)
    (hPath : ∃ r, tgt.path.data = '/' :: r)
    (hs1 : ':' ∉ reply.request.url.scheme.data)
    (hh1 : '/' ∉ reply.request.url.host.data)
    (hh2 : '@' ∉ reply.request.url.host.data)
    (hh3 : ':' ∉ reply.request.url.host.data) :
    dispatchedUrls (s.finished resp).2 =
      [{ scheme := reply.request.url.scheme, userinfo := "",
         host := reply.request.url.host, port := none, path := tgt.path }] := by
  have hVg : (resp.redirectTarget.getD Url.empty).isValid = true := by
    rw [hT]; exact hV
  have hee : "".isEmpty = true := rfl
  have hts : tgt.toStringQ = tgt.path := by
    simp [Url.toStringQ, hScheme, hUi, hHost, hPort, hee]
  have hrw := finished_redirect_events s reply resp hA hVg
  rw [hrw]
  simp only [hT, Option.getD_some]
  have hHe : tgt.host.isEmpty = true := by rw [hHost]; exact hee
  rw [if_pos hHe, hts, fromString_rebuild _ _ _ hs1 hh1 hh2 hh3 hPath]
  simp [dispatchedUrls, QNetworkRequest.setUrl]

/-! ### Header-table lemmas -/

theorem findHeader_replace (l : List (String × String)) (n v : String)
    (h : l.any (fun p => asciiLower p.1 = asciiLower n) = true) :
    ((l.map (fun p => if asciiLower p.1 = asciiLower n then (p.1, v) else p)).find?
      (fun p => asciiLower p.1 = asciiLower n)).map Prod.snd = some v := by
  induction l with
  | nil => simp at h
  | cons p t ih =>
    by_cases hp : asciiLower p.1 = asciiLower n
    · simp [hp]
    · have ht : t.any (fun q => asciiLower q.1 = asciiLower n) = true := by
        simpa [hp] using h
      simpa [hp] using ih ht

theorem findHeader_append (l : List (String × String)) (n v : String)
    (h : l.any (fun p => asciiLower p.1 = asciiLower n) = false) :
    ((l ++ [(n, v)]).find? (fun p => asciiLower p.1 = asciiLower n)).map Prod.snd
      = some v := by
  induction l with
  | nil => simp
  | cons p t ih =>
    have hp : ¬(asciiLower p.1 = asciiLower n) := by
      intro hc
      simp [hc] at h
    have ht : t.any (fun q => asciiLower q.1 = asciiLower n) = false := by
      simpa [hp] using h
    simpa [hp] using ih ht

/-- Reading back a raw header just set returns the set value. -/
theorem rawHeader_setRawHeader_self (r : QNetworkRequest) (n v : String) :
    (r.setRawHeader n v).rawHeader n = v := by
  unfold QNetworkRequest.setRawHeader
  by_cases h : r.rawHeaders.any (fun p => asciiLower p.1 = asciiLower n) = true
  · rw [if_pos h]
    have hthis := findHeader_replace r.rawHeaders n v h
    show (((r.rawHeaders.map
        (fun p => if asciiLower p.1 = asciiLower n then (p.1, v) else p)).find?
        (fun p => asciiLower p.1 = asciiLower n)).map Prod.snd).getD "" = v
    rw [hthis]
    rfl
  · rw [if_neg h]
    have hf : r.rawHeaders.any (fun p => asciiLower p.1 = asciiLower n) = false := by
      simpa using h
    have hthis := findHeader_append r.rawHeaders n v hf
    show (((r.rawHeaders ++ [(n, v)]).find?
        (fun p => asciiLower p.1 = asciiLower n)).map Prod.snd).getD "" = v
    rw [hthis]
    rfl

/-- Setting the URL leaves the raw headers untouched. -/
theorem rawHeader_setUrl (r : QNetworkRequest) (u : Url) (n : String) :
    (r.setUrl u).rawHeader n = r.rawHeader n := rfl

theorem hashFind_replace (l : List (String × String)) (k v : String)
    (h : l.any (fun p => p.1 = k) = true) :
    hashLookup (l.map (fun p => if p.1 = k then (k, v) else p)) k = some v := by
  induction l with
  | nil => simp at h
  | cons p t ih =>
    by_cases hp : p.1 = k
    · simp [hashLookup, hp]
    · have ht : t.any (fun q => q.1 = k) = true := by
        rw [List.any_cons, decide_eq_false hp, Bool.false_or] at h
        exact h
      have := ih ht
      simpa [hashLookup, hp] using this

theorem hashFind_append (l : List (String × String)) (k v : String)
    (h : l.any (fun p => p.1 = k) = false) :
    hashLookup (l ++ [(k, v)]) k = some v := by
  induction l with
  | nil => simp [hashLookup]
  | cons p t ih =>
    rw [List.any_cons, Bool.or_eq_false_iff] at h
    have hp : ¬(p.1 = k) := by
      intro hc
      rw [hc] at h
      simp at h
    have := ih h.2
    simpa [hashLookup, hp] using this

/-! ### Concrete fixtures used by the witnesses -/

def exReq : QNetworkRequest :=
  { rawHeaders := [], url := Url.fromString "http://example.com/old" }

def exReply : ActiveOp :=
  { request := exReq, operation := Op.GetOperation, protectedProp := false,
    usernameProp := "", passwordProp := "", aborted := false }

def exState : Downloader :=
  { Downloader.init 5000 with m_activeReply := some exReply }

def exTarget : Url := Url.fromString "/new"

def exResp : Response :=
  { redirectTarget := some exTarget, body := "", contentType := none,
    error := NetworkError.NoError }

def exReqPort : QNetworkRequest :=
  { rawHeaders := [], url := Url.fromString "http://user@example.com:8080/old" }

def exReplyPort : ActiveOp := { exReply with request := exReqPort }

def exStatePort : Downloader :=
  { Downloader.init 5000 with m_activeReply := some exReplyPort }

def exReplyPost : ActiveOp := { exReply with operation := Op.PostOperation }

def exStatePost : Downloader :=
  { Downloader.init 5000 with
    m_activeReply := some exReplyPost,
    m_inputData := "payload", m_targetProtected := true,
    m_targetUsername := "u", m_targetPassword := "p" }

def exRespDone : Response :=
  { redirectTarget := none, body := "BODY", contentType := some "text/plain",
    error := NetworkError.OtherError 3 }

def exTargetAbs : Url := Url.fromString "https://other.org/path"

def exRespAbs : Response :=
  { redirectTarget := some exTargetAbs, body := "", contentType := none,
    error := NetworkError.NoError }

def exStateActive : Downloader := { exState with m_timer := ⟨5000, true⟩ }

/-! ### Claims -/

/-- C2: for every completed operation whose reply carries a valid
redirection target with an empty host (a path-only target), the single
follow-up request keeps the scheme and host of the request that
produced the redirect, with the path replaced by the target's path. -/
theorem C2_redirect_empty_host_keeps_scheme_host (s : Downloader)
    (reply : ActiveOp) (resp : Response) (tgt : Url)
    (hA : s.m_activeReply = some reply)
    (hT : resp.redirectTarget = some tgt)
    (hV : tgt.isValid = true)
    (hHost : tgt.host = "")
    (hScheme : tgt.scheme = "") (hUi : tgt.userinfo = "")
    (hPort : tgt.port = none)
    (hPath : ∃ r, tgt.path.data = '/' :: r)
    (hs1 : ':' ∉ reply.request.url.scheme.data)
    (hh1 : '/' ∉ reply.request.url.host.data)
    (hh2 : '@' ∉ reply.request.url.host.data)
    (hh3 : ':' ∉ reply.request.url.host.data) :
    (dispatchedUrls (s.finished resp).2).map Url.scheme = [reply.request.url.scheme]
    ∧ (dispatchedUrls (s.finished resp).2).map Url.host = [reply.request.url.host]
    ∧ (dispatchedUrls (s.finished resp).2).map Url.path = [tgt.path] := by
  have h := redirect_empty_host_rebuild s reply resp tgt hA hT hV hHost hScheme
    hUi hPort hPath hs1 hh1 hh2 hh3
  rw [h]
  exact ⟨rfl, rfl, rfl⟩

/-- C2 witness: dispatching GET to `http://example.com/old` and
receiving a redirect to `/new` yields a follow-up request to exactly
`http://example.com/new`. -/
theorem C2_witness :
    exTarget.host = ""
    ∧ (dispatchedUrls (exState.finished exResp).2).map Url.scheme = ["http"]
    ∧ (dispatchedUrls (exState.finished exResp).2).map Url.host = ["example.com"]
    ∧ (dispatchedUrls (exState.finished exResp).2).map Url.path = ["/new"]
    ∧ dispatchedUrls (exState.finished exResp).2
        = [Url.fromString "http://example.com/new"] := by
  have h := C2_redirect_empty_host_keeps_scheme_host exState exReply exResp
    exTarget rfl rfl (by decide) (by decide) (by decide) (by decide) (by decide)
    ⟨['n', 'e', 'w'], by decide⟩ (by decide) (by decide) (by decide) (by decide)
  exact ⟨by decide, h.1, h.2.1, h.2.2, by decide⟩

/-- C9: for every completed operation whose reply carries a valid
redirection target with a non-empty host, the follow-up request's URL
is the redirect target used verbatim. -/
theorem C9_redirect_nonempty_host_verbatim (s : Downloader)
    (reply : ActiveOp) (resp : Response) (tgt : Url)
    (hA : s.m_activeReply = some reply)
    (hT : resp.redirectTarget = some tgt)
    (hV : tgt.isValid = true)
    (hHost : tgt.host.isEmpty = false) :
    dispatchedUrls (s.finished resp).2 = [tgt] := by
  have hVg : (resp.redirectTarget.getD Url.empty).isValid = true := by
    rw [hT]; exact hV
  have hrw := finished_redirect_events s reply resp hA hVg
  rw [hrw]
  simp only [hT, Option.getD_some]
  rw [if_neg (by rw [hHost]; exact Bool.false_ne_true)]
  simp [dispatchedUrls, QNetworkRequest.setUrl]

/-- C9 witness: a redirect to `https://other.org/path` is followed
verbatim. -/
theorem C9_witness :
    exTargetAbs.host.isEmpty = false
    ∧ dispatchedUrls (exState.finished exRespAbs).2 = [exTargetAbs] :=
  ⟨by decide,
   C9_redirect_nonempty_host_verbatim exState exReply exRespAbs exTargetAbs
     rfl rfl (by decide) (by decide)⟩

/-- C10: when the redirect target has an empty host, the follow-up URL
is rebuilt from only the previous request's scheme and host, so an
explicit port and any userinfo in the previous URL are dropped. -/
theorem C10_redirect_rebuild_drops_port_userinfo (s : Downloader)
    (reply : ActiveOp) (resp : Response) (tgt : Url)
    (hA : s.m_activeReply = some reply)
    (hT : resp.redirectTarget = some tgt)
    (hV : tgt.isValid = true)
    (hHost : tgt.host = "")
    (hScheme : tgt.scheme = "") (hUi : tgt.userinfo = "")
    (hPort : tgt.port = none)
    (hPath : ∃ r, tgt.path.data = '/' :: r)
    (hs1 : ':' ∉ reply.request.url.scheme.data)
    (hh1 : '/' ∉ reply.request.url.host.data)
    (hh2 : '@' ∉ reply.request.url.host.data)
    (hh3 : ':' ∉ reply.request.url.host.data) :
    (dispatchedUrls (s.finished resp).2).map Url.port = [none]
    ∧ (dispatchedUrls (s.finished resp).2).map Url.userinfo = [""]
    ∧ (dispatchedUrls (s.finished resp).2).map Url.scheme = [reply.request.url.scheme]
    ∧ (dispatchedUrls (s.finished resp).2).map Url.host = [reply.request.url.host]
    ∧ (dispatchedUrls (s.finished resp).2).map Url.path = [tgt.path] := by
  have h := redirect_empty_host_rebuild s reply resp tgt hA hT hV hHost hScheme
    hUi hPort hPath hs1 hh1 hh2 hh3
  rw [h]
  exact ⟨rfl, rfl, rfl, rfl, rfl⟩

/-- C10 witness: a redirect to `/new` from
`http://user@example.com:8080/old` is followed to exactly
`http://example.com/new` — the port 8080 and the userinfo are gone. -/
theorem C10_witness :
    exReplyPort.request.url.port = some 8080
    ∧ exReplyPort.request.url.userinfo = "user"
    ∧ (dispatchedUrls (exStatePort.finished exResp).2).map Url.port = [none]
    ∧ (dispatchedUrls (exStatePort.finished exResp).2).map Url.userinfo = [""]
    ∧ dispatchedUrls (exStatePort.finished exResp).2
        = [Url.fromString "http://example.com/new"] := by
  have h := C10_redirect_rebuild_drops_port_userinfo exStatePort exReplyPort
    exResp exTarget rfl rfl (by decide) (by decide) (by decide) (by decide)
    (by decide) ⟨['n', 'e', 'w'], by decide⟩ (by decide) (by decide) (by decide)
    (by decide)
  exact ⟨by decide, by decide, h.1, h.2.1, by decide⟩

/-- C3: every redirect continuation re-dispatches with the same
operation kind as the redirected operation (no downgrade to GET), and
the stored body payload and stored credentials are carried over
unchanged onto the follow-up operation. -/
theorem C3_redirect_same_method_body_credentials (s : Downloader)
    (reply : ActiveOp) (resp : Response)
    (hA : s.m_activeReply = some reply)
    (hV : (resp.redirectTarget.getD Url.empty).isValid = true) :
    dispatchedOps (s.finished resp).2 = [reply.operation]
    ∧ dispatchedCreds (s.finished resp).2 =
        [(s.m_targetProtected, s.m_targetUsername, s.m_targetPassword)]
    ∧ ((reply.operation = Op.PostOperation ∨ reply.operation = Op.PutOperation) →
        dispatchedBodies (s.finished resp).2 = [s.m_inputData])
    ∧ (s.finished resp).1.m_inputData = s.m_inputData
    ∧ (s.finished resp).1.m_targetProtected = s.m_targetProtected
    ∧ (s.finished resp).1.m_targetUsername = s.m_targetUsername
    ∧ (s.finished resp).1.m_targetPassword = s.m_targetPassword
    ∧ (s.finished resp).1.m_activeReply.map ActiveOp.operation
        = some reply.operation
    ∧ (s.finished resp).1.m_activeReply.map ActiveOp.protectedProp
        = some s.m_targetProtected
    ∧ (s.finished resp).1.m_activeReply.map ActiveOp.usernameProp
        = some s.m_targetUsername
    ∧ (s.finished resp).1.m_activeReply.map ActiveOp.passwordProp
        = some s.m_targetPassword := by
  have hrw := finished_redirect_events s reply resp hA hV
  refine ⟨by rw [hrw]; rfl, by rw [hrw]; rfl, ?_, ?_, ?_, ?_, ?_, ?_, ?_, ?_, ?_⟩
  · intro h
    rw [hrw]
    rcases h with h | h <;> rw [h] <;> rfl
  all_goals
    by_cases hH : (resp.redirectTarget.getD Url.empty).host.isEmpty = true <;>
      cases hop : reply.operation <;>
        simp [Downloader.finished, hA, hV, hH, hop,
          Downloader.runGetRequest, Downloader.runPostRequest,
          Downloader.runPutRequest, Downloader.runDeleteRequest]

/-- C3 witness: a redirected POST with stored payload and credentials
is re-dispatched as a POST carrying the same payload and the stored
credential triple. -/
theorem C3_witness :
    dispatchedOps (exStatePost.finished exResp).2 = [Op.PostOperation]
    ∧ dispatchedBodies (exStatePost.finished exResp).2 = ["payload"]
    ∧ dispatchedCreds (exStatePost.finished exResp).2 = [(true, "u", "p")] := by
  have h := C3_redirect_same_method_body_credentials exStatePost exReplyPost
    exResp rfl (by decide)
  exact ⟨h.1, h.2.2.1 (Or.inl rfl), h.2.1⟩

/-- C4: appending a custom header with an empty value is a no-op on
the custom-header mapping, so a previously registered non-empty value
under the same name is preserved. -/
theorem C4_appendRawHeader_empty_is_noop :
    (∀ (s : Downloader) (name : String), s.appendRawHeader name "" = s)
    ∧ ∀ (s : Downloader) (name value : String), value.isEmpty = false →
        hashLookup ((s.appendRawHeader name value).appendRawHeader name "").m_customHeaders
          name = some value := by
  have hee : "".isEmpty = true := rfl
  have hnoop : ∀ (s : Downloader) (name : String), s.appendRawHeader name "" = s := by
    intro s name
    simp [Downloader.appendRawHeader, hee]
  refine ⟨hnoop, ?_⟩
  intro s name value hv
  rw [hnoop]
  have h1 : s.appendRawHeader name value =
      { s with m_customHeaders := hashInsert s.m_customHeaders name value } := by
    simp [Downloader.appendRawHeader, hv]
  rw [h1]
  by_cases h : s.m_customHeaders.any (fun p => p.1 = name) = true
  · show hashLookup (hashInsert s.m_customHeaders name value) name = some value
    unfold hashInsert
    rw [if_pos h]
    exact hashFind_replace s.m_customHeaders name value h
  · have hf : s.m_customHeaders.any (fun p => p.1 = name) = false :=
      Bool.eq_false_iff.mpr h
    show hashLookup (hashInsert s.m_customHeaders name value) name = some value
    unfold hashInsert
    rw [if_neg h]
    exact hashFind_append s.m_customHeaders name value hf

/-- C4 witness: `appendHeader("X-Auth","token1")` followed by
`appendHeader("X-Auth","")` leaves `token1` registered. -/
theorem C4_witness :
    "token1".isEmpty = false
    ∧ hashLookup (((Downloader.init 5000).appendRawHeader "X-Auth" "token1").appendRawHeader
        "X-Auth" "").m_customHeaders "X-Auth" = some "token1" :=
  ⟨rfl,
   C4_appendRawHeader_empty_is_noop.2 (Downloader.init 5000) "X-Auth" "token1" rfl⟩

/-- C5: every POST dispatch whose merged headers carry no content-type
value goes out with the raw content-type
`application/x-www-form-urlencoded`; an explicitly set content-type is
left untouched. -/
theorem C5_post_content_type_default (s : Downloader) (url data : String)
    (t : Int) (p : Bool) (u pw : String) :
    (dispatchedReqs (s.manipulateData url Op.PostOperation data t p u pw).2).map
        (fun req => req.rawHeader HTTP_HEADERS_CONTENT_TYPE)
      = [if ((s.m_customHeaders.foldl (fun r q => r.setRawHeader q.1 q.2)
              QNetworkRequest.mkEmpty).rawHeader HTTP_HEADERS_CONTENT_TYPE).isEmpty
         then "application/x-www-form-urlencoded"
         else (s.m_customHeaders.foldl (fun r q => r.setRawHeader q.1 q.2)
              QNetworkRequest.mkEmpty).rawHeader HTTP_HEADERS_CONTENT_TYPE] := by
  by_cases hct : ((s.m_customHeaders.foldl (fun r q => r.setRawHeader q.1 q.2)
      QNetworkRequest.mkEmpty).rawHeader HTTP_HEADERS_CONTENT_TYPE).isEmpty = true
  · simp [Downloader.manipulateData, hct, dispatchedReqs,
      Downloader.runPostRequest, rawHeader_setUrl, rawHeader_setRawHeader_self]
  · simp [Downloader.manipulateData, hct, dispatchedReqs,
      Downloader.runPostRequest, rawHeader_setUrl]

/-- C6: redirect continuations emit no completed event; the
non-redirect branch emits exactly one completed event, after storing
the response body, content-type and error code in the fields read by
the three accessors. -/
theorem C6_completed_exactly_once (s : Downloader) (reply : ActiveOp)
    (resp : Response) (hA : s.m_activeReply = some reply) :
    ((resp.redirectTarget.getD Url.empty).isValid = true →
        (s.finished resp).2.countP Event.isCompleted = 0)
    ∧ ((resp.redirectTarget.getD Url.empty).isValid = false →
        (s.finished resp).2 = [Event.completed resp.error resp.body]
        ∧ (s.finished resp).1.lastContentType = resp.contentType
        ∧ (s.finished resp).1.lastOutputError = resp.error
        ∧ (s.finished resp).1.lastOutputData = resp.body) := by
  constructor
  · intro hV
    have hrw := finished_redirect_events s reply resp hA hV
    rw [hrw]
    rfl
  · intro hV
    simp [Downloader.finished, hA, hV, Downloader.lastContentType,
      Downloader.lastOutputError, Downloader.lastOutputData]

/-- C6 witness: a non-redirect completion emits exactly one completed
event with the stored error and body, and the accessors return the
stored response fields. -/
theorem C6_witness :
    (exState.finished exRespDone).2
        = [Event.completed (NetworkError.OtherError 3) "BODY"]
    ∧ (exState.finished exRespDone).1.lastContentType = some "text/plain"
    ∧ (exState.finished exRespDone).1.lastOutputError = NetworkError.OtherError 3
    ∧ (exState.finished exRespDone).1.lastOutputData = "BODY" :=
  (C6_completed_exactly_once exState exReply exRespDone rfl).2 (by decide)

/-- Stopping the timer before delivering `finished` does not change the
outcome: `finished` stops the timer itself first. -/
theorem finished_stop_timer (s : Downloader) (resp : Response) (r : ActiveOp)
    (h : s.m_activeReply = some r) :
    Downloader.finished { s with m_timer := s.m_timer.stop } resp
      = Downloader.finished s resp := by
  simp [Downloader.finished, h, QTimerS.stop]

/-- C7: the timer firing invokes `cancel` (the constructor wires the
timeout signal to it), which aborts the active reply exactly as an
external `cancel()` does, and every subsequent `finished` delivery
produces the same outcome in both cases; the abort error flows through
the single non-redirect completion path like any other error. -/
theorem C7_timeout_is_self_abort (s : Downloader) (reply : ActiveOp)
    (hT : s.m_timer.active = true) (hA : s.m_activeReply = some reply) :
    (∀ resp, ((stepA s Act.timerFired).1).finished resp
        = ((stepA s Act.externalCancel).1).finished resp)
    ∧ (stepA s Act.timerFired).2 = (stepA s Act.externalCancel).2
    ∧ ((stepA s Act.timerFired).1).m_activeReply
        = some { reply with aborted := true }
    ∧ ((stepA s Act.externalCancel).1).m_activeReply
        = some { reply with aborted := true }
    ∧ (∀ (s2 : Downloader) (r2 : ActiveOp) (resp2 : Response),
        s2.m_activeReply = some r2 → resp2.redirectTarget = none →
        (s2.finished resp2).2 = [Event.completed resp2.error resp2.body]) := by
  have hb : ((stepA s Act.externalCancel).1).m_activeReply
      = some { reply with aborted := true } := by
    simp [stepA, Downloader.cancel, hA]
  have ha : ((stepA s Act.timerFired).1).m_activeReply
      = some { reply with aborted := true } := by
    simp [stepA, hT, Downloader.onTimerTimeout, Downloader.cancel, hA]
  refine ⟨?_, by simp [stepA, hT], ha, hb, ?_⟩
  · intro resp
    have hstep1 : (stepA s Act.timerFired).1 =
        { (stepA s Act.externalCancel).1 with
          m_timer := ((stepA s Act.externalCancel).1).m_timer.stop } := by
      simp [stepA, hT, Downloader.onTimerTimeout, Downloader.cancel, hA,
        QTimerS.stop]
    rw [hstep1]
    exact finished_stop_timer _ _ _ hb
  · intro s2 r2 resp2 hA2 hR2
    have hI : (Url.empty.isValid) = false := rfl
    simp [Downloader.finished, hA2, hR2, hI]

/-- C7 witness: with the timer running and a reply in flight, the
timer firing leaves the active reply aborted exactly as an external
cancel does. -/
theorem C7_witness :
    exStateActive.m_timer.active = true
    ∧ ((stepA exStateActive Act.timerFired).1).m_activeReply
        = some { exReply with aborted := true }
    ∧ ((stepA exStateActive Act.externalCancel).1).m_activeReply
        = some { exReply with aborted := true } := by
  have h := C7_timeout_is_self_abort exStateActive exReply rfl rfl
  exact ⟨rfl, h.2.2.1, h.2.2.2.1⟩

/-- C8: every step other than a non-redirect completion — dispatch,
progress ticks, redirect continuations, timer firings, cancels and
header appends — leaves the three last-outcome fields unchanged. -/
theorem C8_last_outcome_frame (s : Downloader) (a : Act)
    (h : ∀ resp, a = Act.finishedEv resp →
      (resp.redirectTarget.getD Url.empty).isValid = true) :
    (stepA s a).1.lastOutputData = s.lastOutputData
    ∧ (stepA s a).1.lastOutputError = s.lastOutputError
    ∧ (stepA s a).1.lastContentType = s.lastContentType := by
  cases a with
  | dispatch url op data t p u pw =>
    cases op <;>
      simp [stepA, Downloader.manipulateData, Downloader.runGetRequest,
        Downloader.runPostRequest, Downloader.runPutRequest,
        Downloader.runDeleteRequest, Downloader.lastOutputData,
        Downloader.lastOutputError, Downloader.lastContentType]
  | progressTick br bt =>
    by_cases hp : s.m_timer.interval > 0 <;>
      simp [stepA, Downloader.progressInternal, hp, Downloader.lastOutputData,
        Downloader.lastOutputError, Downloader.lastContentType]
  | finishedEv resp =>
    have hV := h resp rfl
    cases hAR : s.m_activeReply with
    | none =>
      simp [stepA, Downloader.finished, hAR, Downloader.lastOutputData,
        Downloader.lastOutputError, Downloader.lastContentType]
    | some r =>
      by_cases hH : (resp.redirectTarget.getD Url.empty).host.isEmpty = true <;>
        cases hop : r.operation <;>
          simp [stepA, Downloader.finished, hAR, hV, hH, hop,
            Downloader.runGetRequest, Downloader.runPostRequest,
            Downloader.runPutRequest, Downloader.runDeleteRequest,
            Downloader.lastOutputData, Downloader.lastOutputError,
            Downloader.lastContentType]
  | timerFired =>
    by_cases hT : s.m_timer.active = true <;>
      cases hAR : s.m_activeReply <;>
        simp [stepA, hT, Downloader.onTimerTimeout, Downloader.cancel, hAR,
          Downloader.lastOutputData, Downloader.lastOutputError,
          Downloader.lastContentType]
  | externalCancel =>
    cases hAR : s.m_activeReply <;>
      simp [stepA, Downloader.cancel, hAR, Downloader.lastOutputData,
        Downloader.lastOutputError, Downloader.lastContentType]
  | appendHeader n v =>
    by_cases hv : v.isEmpty = true <;>
      simp [stepA, Downloader.appendRawHeader, hv, Downloader.lastOutputData,
        Downloader.lastOutputError, Downloader.lastContentType]

/-- C8 witness: a progress tick leaves the last-outcome fields of a
state holding a previous outcome unchanged. -/
theorem C8_witness :
    (stepA exStatePost (Act.progressTick 1 2)).1.lastOutputData
        = exStatePost.lastOutputData
    ∧ (stepA exStatePost (Act.progressTick 1 2)).1.lastOutputError
        = exStatePost.lastOutputError
    ∧ (stepA exStatePost (Act.progressTick 1 2)).1.lastContentType
        = exStatePost.lastContentType :=
  C8_last_outcome_frame exStatePost (Act.progressTick 1 2)
    (fun _ hc => Act.noConfusion hc)

/-- After any dispatch, the timer holds the requested interval and is
active exactly when that interval is non-negative (the request
starters start the timer unconditionally; a negative interval refuses
to start). -/
theorem manipulateData_timer (s : Downloader) (url : String) (op : Op)
    (data : String) (t : Int) (p : Bool) (u pw : String) :
    ((s.manipulateData url op data t p u pw).1).m_timer
      = ⟨t, decide (0 ≤ t)⟩ := by
  cases op <;>
    simp [Downloader.manipulateData, Downloader.runGetRequest,
      Downloader.runPostRequest, Downloader.runPutRequest,
      Downloader.runDeleteRequest, QTimerS.setInterval, QTimerS.start]

/-- A non-dispatch step keeps a negative-interval timer inactive. -/
theorem step_keeps_neg_timer (s : Downloader) (a : Act)
    (hi : s.m_timer.interval < 0) (hact : s.m_timer.active = false)
    (hd : a.isDispatch = false) :
    (stepA s a).1.m_timer.interval < 0
    ∧ (stepA s a).1.m_timer.active = false := by
  cases a with
  | dispatch url op data t p u pw => simp [Act.isDispatch] at hd
  | progressTick br bt =>
    have hnp : ¬(s.m_timer.interval > 0) := by omega
    simp [stepA, Downloader.progressInternal, hnp, hi, hact]
  | finishedEv resp =>
    cases hAR : s.m_activeReply with
    | none => simp [stepA, Downloader.finished, hAR, hi, hact]
    | some r =>
      have hdec : decide (0 ≤ s.m_timer.interval) = false :=
        decide_eq_false (by omega)
      by_cases hV : (resp.redirectTarget.getD Url.empty).isValid = true
      · by_cases hH : (resp.redirectTarget.getD Url.empty).host.isEmpty = true <;>
          cases hop : r.operation <;>
            simp [stepA, Downloader.finished, hAR, hV, hH, hop,
              Downloader.runGetRequest, Downloader.runPostRequest,
              Downloader.runPutRequest, Downloader.runDeleteRequest,
              QTimerS.stop, QTimerS.start, hdec, hi]
      · simp [stepA, Downloader.finished, hAR, hV, QTimerS.stop, hi]
  | timerFired => simp [stepA, hact, hi]
  | externalCancel =>
    cases hAR : s.m_activeReply <;>
      simp [stepA, Downloader.cancel, hAR, hi, hact]
  | appendHeader n v =>
    by_cases hv : v.isEmpty = true <;>
      simp [stepA, Downloader.appendRawHeader, hv, hi, hact]

/-- C1 counterexample: dispatching a GET with timeout 0 leaves the
inactivity timer running (it was started unconditionally at dispatch),
and its firing invokes `cancel`, aborting the operation — so for
timeout 0 the timer does fire between dispatch and the first progress
tick. -/
theorem C1_counterexample_zero_timeout :
    ((0 : Int) ≤ 0)
    ∧ (((Downloader.init 5000).downloadFile "http://example.com/a" 0 false
        "" "").1.m_timer.active = true)
    ∧ ((stepA ((Downloader.init 5000).downloadFile "http://example.com/a" 0
        false "" "").1 Act.timerFired).1.m_activeReply.map ActiveOp.aborted
        = some true) :=
  ⟨le_refl 0, rfl, rfl⟩

/-- C1 amended: for every request dispatched with a strictly negative
timeout the inactivity timer is never active — hence never fires — for
the whole lifetime of the operation, across progress ticks, redirect
continuations and cancels; with timeout 0 the timer is still not
restarted by progress ticks, but it is started at dispatch and can
fire before the first progress tick. -/
theorem C1_amended_negative_timeout_never_fires :
    (∀ (s : Downloader) (url : String) (op : Op) (data : String) (t : Int)
        (p : Bool) (u pw : String) (acts : List Act), t < 0 →
        (∀ a ∈ acts, a.isDispatch = false) →
        (runActs ((s.manipulateData url op data t p u pw).1) acts).m_timer.active
          = false)
    ∧ (∀ (s : Downloader) (br bt : Int), s.m_timer.interval ≤ 0 →
        ((s.progressInternal br bt).1).m_timer = s.m_timer) := by
  constructor
  · intro s url op data t p u pw acts ht hacts
    have hinv : ∀ (l : List Act) (s0 : Downloader), s0.m_timer.interval < 0 →
        s0.m_timer.active = false → (∀ a ∈ l, a.isDispatch = false) →
        (runActs s0 l).m_timer.interval < 0
        ∧ (runActs s0 l).m_timer.active = false := by
      intro l
      induction l with
      | nil => intro s0 hi hac _; exact ⟨hi, hac⟩
      | cons a rest ih =>
        intro s0 hi hac hall
        have h1 := step_keeps_neg_timer s0 a hi hac (hall a (List.mem_cons_self _ _))
        have h2 := ih ((stepA s0 a).1) h1.1 h1.2
          (fun b hb => hall b (List.mem_cons_of_mem _ hb))
        simpa [runActs] using h2
    have h0 := manipulateData_timer s url op data t p u pw
    have hint : ((s.manipulateData url op data t p u pw).1).m_timer.interval < 0 := by
      rw [h0]; exact ht
    have hactv : ((s.manipulateData url op data t p u pw).1).m_timer.active = false := by
      rw [h0]
      exact decide_eq_false (by omega)
    exact (hinv acts _ hint hactv hacts).2
  · intro s br bt hle
    have hnp : ¬(s.m_timer.interval > 0) := by omega
    simp [Downloader.progressInternal, hnp]

/-- C1 amended witness: a GET dispatched with timeout −1 keeps the
timer inactive across a progress tick and a (vacuous) timer event. -/
theorem C1_amended_witness :
    ((-1 : Int) < 0)
    ∧ ((runActs (((Downloader.init 5000).manipulateData "http://example.com/a"
          Op.GetOperation "" (-1) false "" "").1)
          [Act.progressTick 1 2, Act.timerFired]).m_timer.active = false) :=
  ⟨by decide,
   C1_amended_negative_timeout_never_fires.1 (Downloader.init 5000)
     "http://example.com/a" Op.GetOperation "" (-1) false "" ""
     [Act.progressTick 1 2, Act.timerFired] (by decide) (by decide)⟩

end Textosaurus
